import Mathlib

/-!
Verification development for the telecom field-sensitivity blacklist
generator (`Log_masking/blacklist_generator.py`) and its override-merge
script (`Log_masking/merge_overrides_script.py`).

The Python code is shallowly embedded: every helper of the generator class
(`extract_final_key`, `get_field_category`, `extract_entity_and_field`,
`exact_keyword_match`, `should_exclude`, `has_code_or_type_suffix`,
`is_boolean_field`, `is_uuid_field`, `has_datetime_values`,
`is_personal_date_field`, `analyze_values`, `analyze_field`) is translated
to an executable Lean function, and the regexes of the default pattern
configuration are translated token-by-token into a small decidable
matcher.  Strings are modelled as Lean strings (the inputs are ASCII, so
Python's `.lower()/.upper()/.strip()` agree with the ASCII-level Lean
translations used here).
-/

/-- Python whitespace class for `str.strip` and the regex class backslash-s
(ASCII part: space, tab, newline, carriage return, vertical tab, form feed). -/
def pyWs (c : Char) : Bool :=
  c == ' ' || c == '\t' || c == '\n' || c == '\r' || c == Char.ofNat 11 || c == Char.ofNat 12

/-- Python `str.strip()` on ASCII input: drop whitespace from both ends. -/
def pyStrip (s : String) : String :=
  String.mk ((((s.toList.dropWhile pyWs).reverse).dropWhile pyWs).reverse)

/-- Python `str.lower()` on ASCII input (character-wise ASCII lowering). -/
def lowerStr (s : String) : String := String.mk (s.toList.map Char.toLower)

/-- Python `str.upper()` on ASCII input (character-wise ASCII raising). -/
def upperStr (s : String) : String := String.mk (s.toList.map Char.toUpper)

/-- Python `str.strip().lower()` on ASCII input. -/
def pyStripLower (s : String) : String := lowerStr (pyStrip s)

/-- Python substring test `needle in hay`. -/
def containsSub (needle hay : String) : Bool :=
  let ns := needle.toList
  let hs := hay.toList
  (List.range (hs.length + 1)).any fun i => ((hs.drop i).take ns.length) == ns

/-- Python `s.endswith(suf)`. -/
def endsWithS (s suf : String) : Bool :=
  s.toList.drop (s.toList.length - suf.toList.length) == suf.toList

/-- Python `s.startswith(pre)`. -/
def strStartsWith (s pre : String) : Bool :=
  s.toList.take pre.toList.length == pre.toList

/-- `extract_final_key`: the text after the last dot of a field path
(`field_path.split('.')[-1]`, the whole path when it has no dot). -/
def extractFinalKey (p : String) : String :=
  String.mk ((p.toList.reverse.takeWhile (fun c => !(c == '.'))).reverse)

/-- The text before the first dot of a field path (`path.split('.')[0]`,
the whole path when it has no dot). -/
def firstSegment (p : String) : String :=
  String.mk (p.toList.takeWhile (fun c => !(c == '.')))

/-- Order-preserving deduplication, the observable content of Python's
`list(set(xs))` (only membership of the result is relied on). -/
def dedupAux : List String → List String → List String
  | [], _ => []
  | x :: xs, seen => if seen.contains x then dedupAux xs seen else x :: dedupAux xs (x :: seen)

def dedupF (l : List String) : List String := dedupAux l []

/-- Python `int(s)` on an all-digit string. -/
def natOfStr (s : String) : Nat :=
  s.toList.foldl (fun n c => 10 * n + (c.toNat - '0'.toNat)) 0

/-!  A tiny decidable matcher for the fixed regexes of the generator.
A regex is rendered as alternatives of token lists; each token is a
character class with a repetition range (`none` = unbounded), and matching
tries every split, which is exactly the backtracking semantics of the
Python `re` engine on these patterns.  -/

structure Tok where
  cls : Char → Bool
  lo : Nat
  hi : Option Nat

/-- Largest repetition count of a token usable against `n` remaining chars. -/
def tokMax (t : Tok) (n : Nat) : Nat :=
  match t.hi with
  | none => n
  | some h => min h n

/-- Full match of a token list against a character list (`re.match` of an
alternation-free pattern whose every alternative ends with the dollar anchor). -/
def matchToks : List Tok → List Char → Bool
  | [], cs => cs.isEmpty
  | t :: ts, cs =>
      (List.range (tokMax t cs.length + 1)).any fun k =>
        decide (t.lo ≤ k) && (cs.take k).all t.cls && matchToks ts (cs.drop k)

/-- Match of a token list against a prefix of the character list
(the tail may be anything): the building block for `re.search`. -/
def matchPre : List Tok → List Char → Bool
  | [], _ => true
  | t :: ts, cs =>
      (List.range (tokMax t cs.length + 1)).any fun k =>
        decide (t.lo ≤ k) && (cs.take k).all t.cls && matchPre ts (cs.drop k)

/-- `re.search` of an unanchored token list: a match may start anywhere. -/
def searchToks (ts : List Tok) (cs : List Char) : Bool :=
  (List.range (cs.length + 1)).any fun i => matchPre ts (cs.drop i)

/-- `re.match` against a pattern given as a list of alternatives. -/
def matchAny (alts : List (List Tok)) (s : String) : Bool :=
  alts.any fun ts => matchToks ts s.toList

/-- Token: a fixed repetition range of a character class. -/
def tk (p : Char → Bool) (lo hi : Nat) : Tok := ⟨p, lo, some hi⟩

/-- Token: at least `lo` repetitions of a character class. -/
def tkFrom (p : Char → Bool) (lo : Nat) : Tok := ⟨p, lo, none⟩

/-- Token: one literal character. -/
def lit (c : Char) : Tok := ⟨fun x => x == c, 1, some 1⟩

/-- Token: an optional literal character. -/
def opt (c : Char) : Tok := ⟨fun x => x == c, 0, some 1⟩

/-- A case-insensitive literal word, one token per character. -/
def ciLit (s : String) : List Tok :=
  s.toList.map fun ch => tk (fun c => c.toLower == ch.toLower) 1 1

/-- ASCII digit class (regex backslash-d on this ASCII input). -/
def digC : Char → Bool := Char.isDigit

def dig (lo hi : Nat) : Tok := tk digC lo hi

/-- ASCII uppercase class `[A-Z]`. -/
def upC (c : Char) : Bool := 'A' ≤ c && c ≤ 'Z'

/-- ASCII lowercase class `[a-z]`. -/
def lowC (c : Char) : Bool := 'a' ≤ c && c ≤ 'z'

/-- ASCII letter class `[a-zA-Z]`. -/
def alphaC (c : Char) : Bool := upC c || lowC c

/-- ASCII alphanumeric class `[a-zA-Z0-9]`. -/
def alnumC (c : Char) : Bool := alphaC c || digC c

/-- Hex digit class `[0-9a-f]` compiled with `re.IGNORECASE`. -/
def hexC (c : Char) : Bool := digC c || ('a' ≤ c.toLower && c.toLower ≤ 'f')

/-!  The fifteen `value_patterns` regexes of the default configuration,
compiled (translated token-by-token; every alternative is anchored at both
ends in the source, so `re.match` is a full match).  -/

/-- Regex: email address. -/
def emailMatch : String → Bool :=
  matchAny [[tkFrom (fun c => alnumC c || c == '.' || c == '_' || c == '%' || c == '+' || c == '-') 1,
             lit '@',
             tkFrom (fun c => alnumC c || c == '.' || c == '-') 1,
             lit '.', tkFrom alphaC 2]]

/-- Regex: phone number (three alternatives). -/
def phoneMatch : String → Bool :=
  matchAny [[opt '+', tk (fun c => '1' ≤ c && c ≤ '9') 1 1, dig 1 14],
            [lit '(', dig 3 3, lit ')', ⟨pyWs, 0, some 1⟩, dig 3 3, lit '-', dig 4 4],
            [dig 10 15]]

/-- Regex: credit-card number with optional space/dash group separators. -/
def creditCardMatch : String → Bool :=
  matchAny [[dig 4 4, ⟨fun c => pyWs c || c == '-', 0, some 1⟩,
             dig 4 4, ⟨fun c => pyWs c || c == '-', 0, some 1⟩,
             dig 4 4, ⟨fun c => pyWs c || c == '-', 0, some 1⟩, dig 4 4]]

/-- Regex: SSN, dashed or 9 plain digits. -/
def ssnMatch : String → Bool :=
  matchAny [[dig 3 3, lit '-', dig 2 2, lit '-', dig 4 4], [dig 9 9]]

/-- Regex: ISO or slashed calendar date. -/
def dateStandardMatch : String → Bool :=
  matchAny [[dig 4 4, lit '-', dig 2 2, lit '-', dig 2 2],
            [dig 2 2, lit '/', dig 2 2, lit '/', dig 4 4]]

/-- Month-name alternatives of the textual date regex. -/
def monthNames : List String :=
  ["Jan", "Feb", "Mar", "Apr", "May", "Jun", "Jul", "Aug", "Sep", "Oct", "Nov", "Dec"]

/-- Regex: textual date such as `Jan 5 2021`; the only pattern the source
compiles with `re.IGNORECASE` (triggered by its month alternation). -/
def dateTextMatch : String → Bool :=
  matchAny (monthNames.map fun m =>
    ciLit m ++ [⟨pyWs, 1, none⟩, dig 1 2, ⟨pyWs, 1, none⟩, dig 4 4])

/-- Regex: compact 8- or 6-digit date. -/
def dateCompactMatch : String → Bool :=
  matchAny [[dig 8 8], [dig 6 6]]

/-- One coordinate component: optional minus, digits, optional dot, digits. -/
def coordComp : List Tok :=
  [opt '-', tkFrom digC 1, opt '.', tkFrom digC 0]

/-- Regex: comma-separated latitude/longitude pair. -/
def coordinatesMatch : String → Bool :=
  matchAny [coordComp ++ [lit ','] ++ coordComp]

/-- Regex: currency amount, optional dollar sign, up to two decimals. -/
def currencyMatch : String → Bool :=
  matchAny [[opt '$', tkFrom digC 1, opt '.', dig 0 2]]

/-- Regex: 15-digit IMEI. -/
def imeiMatch : String → Bool := matchAny [[dig 15 15]]

/-- Regex: 3- or 4-digit CVV. -/
def cvvMatch : String → Bool := matchAny [[dig 3 4]]

/-- Regex: dotted-quad IP address. -/
def ipMatch : String → Bool :=
  matchAny [[dig 1 3, lit '.', dig 1 3, lit '.', dig 1 3, lit '.', dig 1 3]]

/-- Regex: capitalised `First Last` pair or a single capitalised word. -/
def namePatternMatch : String → Bool :=
  matchAny [[tk upC 1 1, tkFrom lowC 1, lit ' ', tk upC 1 1, tkFrom lowC 1],
            [tk upC 1 1, tkFrom lowC 2]]

/-- Regex: 6- to 20-digit numeric identifier. -/
def longNumericIdMatch : String → Bool := matchAny [[⟨digC, 6, some 20⟩]]

/-- Regex: 6- to 20-character uppercase alphanumeric identifier. -/
def alphanumericIdMatch : String → Bool :=
  matchAny [[⟨fun c => upC c || digC c, 6, some 20⟩]]

/-!  Value-level helper predicates of the generator.  -/

/-- The literal boolean-like strings of `is_boolean_field`. -/
def booleanValues : List String :=
  ["true", "false", "yes", "no", "y", "n", "1", "0",
   "on", "off", "enabled", "disabled", "active", "inactive",
   "valid", "invalid"]

/-- `is_boolean_field`: a non-empty value sample all of whose entries,
stripped and lowercased, are boolean-like strings. -/
def isBooleanField (vals : List String) : Bool :=
  !vals.isEmpty && vals.all fun v => decide (pyStripLower v ∈ booleanValues)

/-- The three compiled UUID regexes of `is_uuid_field` (all anchored). -/
def uuidAlts : List (List Tok) :=
  [[tk hexC 8 8, lit '-', tk hexC 4 4, lit '-', tk hexC 4 4, lit '-',
    tk hexC 4 4, lit '-', tk hexC 12 12],
   [tk hexC 32 32],
   [⟨fun c => c == Char.ofNat 123, 0, some 1⟩,
    tk hexC 8 8, lit '-', tk hexC 4 4, lit '-', tk hexC 4 4, lit '-',
    tk hexC 4 4, lit '-', tk hexC 12 12,
    ⟨fun c => c == Char.ofNat 125, 0, some 1⟩]]

/-- `is_uuid_field`: a non-empty value sample, every stripped entry matching
one of the three UUID regexes. -/
def isUuidField (vals : List String) : Bool :=
  !vals.isEmpty && vals.all fun v => uuidAlts.any fun ts => matchToks ts (pyStrip v).toList

/-- The three unanchored datetime regexes of `has_datetime_values`
(applied with `re.search`). -/
def dtSearchPats : List (List Tok) :=
  [[dig 4 4, lit '-', dig 2 2, lit '-', dig 2 2, lit 'T', dig 2 2, lit ':', dig 2 2, lit ':', dig 2 2],
   [dig 4 4, lit '-', dig 2 2, lit '-', dig 2 2, ⟨pyWs, 1, none⟩, dig 2 2, lit ':', dig 2 2, lit ':', dig 2 2],
   [dig 2 2, lit '/', dig 2 2, lit '/', dig 4 4, ⟨pyWs, 1, none⟩, dig 1 2, lit ':', dig 2 2]]

/-- The two datetime regexes anchored at the start (searched, so they must
match at position zero but need not reach the end). -/
def dtAnchoredPats : List (List Tok) :=
  [[dig 4 4, lit '-', dig 2 2, lit '-', dig 2 2, lit 'T', dig 2 2, lit ':', dig 2 2, lit ':', dig 2 2, lit 'Z'],
   [dig 4 4, lit '-', dig 2 2, lit '-', dig 2 2, lit 'T', dig 2 2, lit ':', dig 2 2, lit ':', dig 2 2,
    ⟨fun c => c == '+' || c == '-', 1, some 1⟩, dig 2 2, lit ':', dig 2 2]]

/-- `has_datetime_values`: only the first three values are inspected; a value
counts when a datetime regex fires or when it is a 13- or 16-plus-digit
number inside the hardcoded unix-epoch millisecond range. -/
def hasDatetimeValues (vals : List String) : Bool :=
  if vals.isEmpty then false
  else (vals.take 3).any fun v =>
    let vs := pyStrip v
    dtSearchPats.any (fun ts => searchToks ts vs.toList) ||
    dtAnchoredPats.any (fun ts => matchPre ts vs.toList) ||
    ((matchAny [[dig 13 13]] vs || matchAny [[tkFrom digC 16]] vs) &&
      (decide (1577836800000 ≤ natOfStr vs) && decide (natOfStr vs ≤ 1924991999999)))

/-!  The generator configuration (the fields of the pattern store that the
classification path reads) and the classifier itself.  -/

/-- The pattern-store fields read by `analyze_field` and its helpers.
`valuePatterns` holds the compiled value regexes (name and matcher) in the
iteration order of the `value_patterns` dict; `exactKeywords` holds, per
category, the subcategory keyword lists backing `compiled_exact_patterns`. -/
structure GenConfig where
  manualBlacklist : List String
  manualWhitelist : List String
  exclusions : List String
  entityPfxs : List String
  exactKeywords : List (String × List (String × List String))
  valuePatterns : List (String × (String → Bool))
  patternMappings : List (String × List String)

/-- `get_field_category`: request/response/headers from the path, else
the literal string unknown. -/
def getFieldCategory (path : String) : String :=
  if strStartsWith path "request." then "request"
  else if strStartsWith path "response." then "response"
  else if strStartsWith path "headers." then "headers"
  else "unknown"

/-- Loop body of `extract_entity_and_field`: the first entity marker whose
lowered form starts the lowered field name, leaves a non-empty remainder,
and whose remainder starts with an uppercase letter or an underscore. -/
def findEntitySplit (pfxs : List String) (fieldName : String) : Option String × String × Bool :=
  match pfxs with
  | [] => (none, lowerStr fieldName, false)
  | p :: rest =>
      let fl := lowerStr fieldName
      let pl := lowerStr p
      let origRem := String.mk (fieldName.toList.drop pl.toList.length)
      if strStartsWith fl pl && decide (pl.toList.length < fl.toList.length) &&
         ((!origRem.toList.isEmpty && (origRem.toList.headD ' ').isUpper) ||
          strStartsWith origRem "_")
      then (some p, lowerStr (String.mk (origRem.toList.dropWhile (fun c => c == '_'))), true)
      else findEntitySplit rest fieldName

/-- `extract_entity_and_field` over the configured entity markers. -/
def extractEntityAndField (cfg : GenConfig) (fieldName : String) : Option String × String × Bool :=
  findEntitySplit cfg.entityPfxs fieldName

/-- Word character of the regex word-boundary class (ASCII part). -/
def wordChar (c : Char) : Bool := alnumC c || c == '_'

/-- Whether position `i` of `cs` holds a word character (out of range: no). -/
def wcAt (cs : List Char) (i : Nat) : Bool :=
  match cs.get? i with
  | some c => wordChar c
  | none => false

/-- Regex word boundary before position `i` of `cs`. -/
def boundAt (cs : List Char) (i : Nat) : Bool :=
  (if i = 0 then false else wcAt cs (i - 1)) != wcAt cs i

/-- One keyword of a compiled exact pattern occurring in the text between
word boundaries: the semantics of searching the word-boundary alternation
regex built by `compile_patterns`. -/
def wbOccurs (kw : List Char) (cs : List Char) : Bool :=
  (List.range (cs.length + 1)).any fun i =>
    ((cs.drop i).take kw.length == kw) && boundAt cs i && boundAt cs (i + kw.length)

/-- `re.search` of the compiled whole-word keyword alternation of a
subcategory against a field name (keywords and text are already lowercase,
so the IGNORECASE flag of the source is moot). -/
def wbSearch (kws : List String) (s : String) : Bool :=
  kws.any fun kw => wbOccurs kw.toList s.toList

/-- The hardcoded sensitive entity markers of `exact_keyword_match`. -/
def sensitiveEntities : List String :=
  ["customer", "person", "user", "subscriber", "individual", "profile"]

/-- `exact_keyword_match`: manual overrides on the lowered final key first,
then per-category whole-word keyword search on the (possibly
entity-stripped) field name; the entity fallback re-runs the same search,
mirroring the source. -/
def exactKeywordMatch (cfg : GenConfig) (path : String) : List String :=
  let finalKey := lowerStr (extractFinalKey path)
  if finalKey ∈ cfg.manualWhitelist then []
  else if finalKey ∈ cfg.manualBlacklist then ["DEVELOPER_MANUAL"]
  else
    let eaf := extractEntityAndField cfg finalKey
    let entityP := eaf.1
    let fieldName := eaf.2.1
    let isComp := eaf.2.2
    let matched := cfg.exactKeywords.foldl (fun acc catSub =>
      let direct := catSub.2.any fun sc => wbSearch sc.2 fieldName
      if direct then acc ++ [upperStr catSub.1]
      else if isComp &&
              (match entityP with
               | some e => sensitiveEntities.contains (lowerStr e)
               | none => false) &&
              catSub.2.any (fun sc => wbSearch sc.2 fieldName)
           then acc ++ [upperStr catSub.1]
      else acc) []
    dedupF matched

/-- `should_exclude`: lowered final key in the static exclusion list. -/
def shouldExclude (cfg : GenConfig) (finalKey : String) : Bool :=
  decide (lowerStr finalKey ∈ cfg.exclusions)

/-- The sensitive code exceptions hardcoded in `has_code_or_type_suffix`. -/
def sensitiveCodeExceptions : List String :=
  ["zipcode", "postalcode", "areacode", "countrycode", "regioncode",
   "securitycode", "verificationcode", "accesscode", "pincode",
   "activationcode", "confirmationcode", "passcode", "passwordcode",
   "authcode", "otpcode", "mfacode", "twofa", "lockcode"]

/-- The classification suffix list hardcoded in `has_code_or_type_suffix`. -/
def classificationSuffixes : List String :=
  ["code", "type", "method", "format", "style", "mode", "kind",
   "category", "class", "classification", "scheme", "strategy",
   "variant", "option", "choice", "selection"]

/-- The business context words hardcoded in `has_code_or_type_suffix`. -/
def businessCodePatterns : List String :=
  ["plan", "rate", "product", "service", "status", "error", "result",
   "response", "transaction", "campaign", "promotion", "offer",
   "subscription", "billing", "invoice", "payment"]

/-- `has_code_or_type_suffix`: sensitive exceptions veto; a key ending in
code is excluded only with a business context word; any other
classification suffix excludes directly. -/
def hasCodeOrTypeSuffix (fieldName : String) : Bool :=
  let fl := lowerStr fieldName
  if sensitiveCodeExceptions.any (fun e => containsSub e fl) then false
  else if endsWithS fl "code" then
    businessCodePatterns.any fun p =>
      containsSub p fl && !(sensitiveCodeExceptions.any fun e => containsSub e fl)
  else (classificationSuffixes.drop 1).any fun suf => endsWithS fl suf

/-- The personal-date keywords of `is_personal_date_field`. -/
def personalDateKeywords : List String :=
  ["dob", "dateofbirth", "birthdate", "birthday", "bday", "birth", "born",
   "date_of_birth", "birth_date", "dateborn", "date_born"]

/-- `is_personal_date_field`: keyword containment over the lowered name and,
for compound names, also over the entity-stripped part. -/
def isPersonalDateField (cfg : GenConfig) (fieldName : String) : Bool :=
  let fl := lowerStr fieldName
  let eaf := extractEntityAndField cfg fl
  let fieldsToCheck := if eaf.2.2 then [fl, eaf.2.1] else [fl]
  fieldsToCheck.any fun f => personalDateKeywords.any fun kw => containsSub kw f

/-- Assoc lookup in `pattern_mappings` (missing name contributes nothing). -/
def mappingsFor (nm : String) (maps : List (String × List String)) : List String :=
  match maps with
  | [] => []
  | (k, cats) :: rest => if k == nm then cats else mappingsFor nm rest

/-- Result of `analyze_values`: deduplicated pattern names and categories. -/
structure AVResult where
  patternsFound : List String
  categories : List String

/-- `analyze_values`: deduplicate the first five values, strip each, run
every compiled value pattern, skip date patterns on datetime-looking
values, and accumulate pattern names with their mapped categories. -/
def analyzeValues (cfg : GenConfig) (vals : List String) : AVResult :=
  let uniq := dedupF (vals.take 5)
  let pair := uniq.foldl (fun (acc : List String × List String) v =>
    let vs := pyStrip v
    cfg.valuePatterns.foldl (fun acc2 nmMf =>
      if nmMf.2 vs && !(strStartsWith nmMf.1 "date_" && hasDatetimeValues [vs])
      then (acc2.1 ++ [nmMf.1], acc2.2 ++ mappingsFor nmMf.1 cfg.patternMappings)
      else acc2) acc) ([], [])
  ⟨dedupF pair.1, dedupF pair.2⟩

/-- The outcome of `analyze_field` for one field: skipped (unknown path
root), appended to `excluded_fields` with a match type, blacklisted with
its detected categories and whether a key signal fired, or safe. -/
inductive FieldDisposition where
  | skipped
  | excludedField (matchType : String)
  | blacklistedField (cats : List String) (keyBased : Bool)
  | safeField
deriving DecidableEq

/-- Whether a disposition blacklists the field. -/
def FieldDisposition.isSensitive : FieldDisposition → Bool
  | .blacklistedField _ _ => true
  | _ => false

/-- Detected categories carried by a disposition. -/
def FieldDisposition.cats : FieldDisposition → List String
  | .blacklistedField cs _ => cs
  | _ => []

/-- `analyze_field`, decision part: the check chain in source order —
unknown path root, manual whitelist, manual blacklist, static exclusions,
code/type suffix, boolean values, UUID values, datetime values (spared for
personal-date keys), then exact keyword matching unioned with value
analysis. -/
def classifyField (cfg : GenConfig) (path : String) (vals : List String) : FieldDisposition :=
  let finalKey := extractFinalKey path
  let cat := getFieldCategory path
  if cat = "unknown" then .skipped
  else if finalKey ∈ cfg.manualWhitelist then .excludedField "manual_whitelist"
  else if finalKey ∈ cfg.manualBlacklist then .blacklistedField ["DEVELOPER_MANUAL"] true
  else if shouldExclude cfg finalKey then .excludedField "exclusion"
  else if hasCodeOrTypeSuffix finalKey then .excludedField "exclusion"
  else if isBooleanField vals then .excludedField "exclusion"
  else if isUuidField vals then .excludedField "exclusion"
  else if !vals.isEmpty && hasDatetimeValues vals && !isPersonalDateField cfg finalKey then
    .excludedField "exclusion"
  else
    let keyCats := exactKeywordMatch cfg path
    let valueCats := if !vals.isEmpty then (analyzeValues cfg vals).categories else []
    let cats := dedupF (keyCats ++ valueCats)
    if cats.isEmpty then .safeField else .blacklistedField cats (!keyCats.isEmpty)

/-- The mutable collections `analyze_field` updates: the two consolidated
blacklist sets and the four report lists (tracked by field path). -/
structure GenState where
  payloadBlacklist : Finset String
  headersBlacklist : Finset String
  exactMatchBlacklisted : List String
  valueBasedBlacklisted : List String
  excludedFields : List String
  safeFields : List String
deriving DecidableEq

/-- The empty collections the generator starts with. -/
def emptyGenState : GenState := ⟨∅, ∅, [], [], [], []⟩

/-- `analyze_field`, state part: route the disposition into the blacklist
sets and report lists exactly as the source does. -/
def analyzeFieldS (cfg : GenConfig) (st : GenState) (path : String) (vals : List String) : GenState :=
  match classifyField cfg path vals with
  | .skipped => st
  | .excludedField _ => { st with excludedFields := st.excludedFields ++ [path] }
  | .safeField => { st with safeFields := st.safeFields ++ [path] }
  | .blacklistedField _ keyBased =>
      let fk := extractFinalKey path
      let cat := getFieldCategory path
      let st1 :=
        if cat = "headers" then { st with headersBlacklist := insert fk st.headersBlacklist }
        else if cat = "request" ∨ cat = "response" then
          { st with payloadBlacklist := insert fk st.payloadBlacklist }
        else st
      if keyBased then { st1 with exactMatchBlacklisted := st1.exactMatchBlacklisted ++ [path] }
      else { st1 with valueBasedBlacklisted := st1.valueBasedBlacklisted ++ [path] }

/-!  The default pattern configuration written by
`create_enhanced_patterns_file`, transcribed list by list.  -/

/-- The `entity_prefixes` list of the default configuration. -/
def defaultEntityPfxs : List String :=
  ["customer", "cust", "c", "client", "cli", "subscriber", "sub", "s",
   "user", "usr", "u", "person", "pers", "p", "individual", "ind",
   "account", "acc", "acct", "a", "member", "mem", "m", "profile", "prof",
   "employee", "emp", "e", "staff", "operator", "op", "admin", "administrator",
   "contact", "cont", "owner", "holder", "cardholder", "ch",
   "primary", "prim", "secondary", "sec", "billing", "bill", "payment", "pay",
   "emergency", "emerg", "backup", "temp", "temporary", "alt", "alternate"]

/-- The `spi` keyword subcategories of the default configuration. -/
def spiKeywords : List (String × List String) :=
  [("name_fields",
    ["name", "nm", "nme", "fullname", "full_name", "completename", "complete_name",
     "wholename", "whole_name", "entirename", "entire_name",
     "firstname", "first_name", "fname", "fnme", "fn", "f_name", "givenname",
     "given_name", "forename", "fore_name", "prename", "pre_name",
     "lastname", "last_name", "lname", "lnme", "ln", "l_name", "surname",
     "sur_name", "familyname", "family_name", "patronymic",
     "middlename", "middle_name", "mname", "mnme", "mn", "m_name",
     "middleinitial", "middle_initial", "mi",
     "displayname", "display_name", "nickname", "nick_name", "alias",
     "username", "user_name", "uname", "usrnm", "screenname", "screen_name",
     "handle", "moniker", "title", "suffix", "prefix", "maiden", "maidenname"]),
   ("email_fields",
    ["email", "eml", "em", "e_mail", "emailaddr", "email_addr", "emailaddress",
     "email_address", "mail", "mailaddr", "mail_addr", "mailaddress", "mail_address",
     "contact", "contactemail", "contact_email", "emailid", "email_id",
     "mailid", "mail_id", "emailaccount", "email_account", "mailaccount", "mail_account",
     "workmail", "work_mail", "workemail", "work_email", "businessemail", "business_email",
     "personalemail", "personal_email", "homemail", "home_mail", "homeemail", "home_email",
     "primaryemail", "primary_email", "secondaryemail", "secondary_email",
     "alternateemail", "alternate_email", "backupemail", "backup_email"]),
   ("phone_fields",
    ["phone", "phn", "phne", "ph", "fone", "tel", "telephone", "tele", "mobile",
     "mob", "cell", "cellular", "cellphone", "cell_phone", "mobilephone", "mobile_phone",
     "msisdn", "number", "num", "no", "phoneno", "phone_no", "phonenumber", "phone_number",
     "contactno", "contact_no", "contactnumber", "contact_number", "tel_no", "telephone_no",
     "homephone", "home_phone", "workphone", "work_phone", "businessphone", "business_phone",
     "officephone", "office_phone", "personalphone", "personal_phone", "mobilenum", "mobile_num",
     "cellnum", "cell_num", "phoneline", "phone_line", "line", "extension", "ext",
     "primaryphone", "primary_phone", "secondaryphone", "secondary_phone", "fax", "faxno", "fax_no"]),
   ("address_fields",
    ["address", "addr", "add", "location", "loc", "place", "residence", "dwelling",
     "street", "st", "str", "streetaddress", "street_address", "streetaddr", "street_addr",
     "homeaddress", "home_address", "workaddress", "work_address", "businessaddress", "business_address",
     "mailingaddress", "mailing_address", "billingaddress", "billing_address", "shippingaddress", "shipping_address",
     "physicaladdress", "physical_address", "residentialaddress", "residential_address",
     "primaryaddress", "primary_address", "secondaryaddress", "secondary_address",
     "city", "town", "municipality", "locality", "county", "state", "province", "region",
     "country", "nation", "zip", "zipcode", "zip_code", "postal", "postalcode", "postal_code",
     "postcode", "post_code", "area", "areacode", "area_code", "district", "zone",
     "apartment", "apt", "unit", "suite", "ste", "floor", "building", "bldg"]),
   ("dob_fields",
    ["dob", "dateofbirth", "date_of_birth", "birthdate", "birth_date", "birthday", "bday", "b_day",
     "birth", "born", "birthtime", "birth_time", "dateborn", "date_born", "db", "bd",
     "birthyear", "birth_year", "birthmonth", "birth_month", "birthday", "birth_day",
     "dobirth", "do_birth", "nativity", "natal", "age", "yob", "year_of_birth"]),
   ("ssn_fields",
    ["ssn", "socialsecurity", "social_security", "socialsecuritynumber", "social_security_number",
     "social", "taxid", "tax_id", "taxpayerid", "taxpayer_id", "tin", "ein",
     "nationalid", "national_id", "nationalnumber", "national_number", "citizenid", "citizen_id",
     "identityno", "identity_no", "identitynumber", "identity_number", "identification", "ident",
     "personalid", "personal_id", "personid", "person_id", "individualid", "individual_id",
     "govid", "gov_id", "governmentid", "government_id", "federalid", "federal_id"]),
   ("license_fields",
    ["license", "licence", "driverlicense", "driver_license", "driverlicence", "driver_licence",
     "dl", "dln", "driverlicensenumber", "driver_license_number", "licensenum", "license_num",
     "drivinglicense", "driving_license", "drivingpermit", "driving_permit", "permit",
     "passport", "passportno", "passport_no", "passportnumber", "passport_number",
     "passportid", "passport_id", "visa", "visano", "visa_no", "visanumber", "visa_number"]),
   ("personal_fields",
    ["subscriber", "customer", "cust", "personal", "individual", "person", "profile",
     "identity", "ident", "private", "confidential", "sensitive", "pii", "personalinfo", "personal_info"])]

/-- The `cpni` keyword subcategories of the default configuration. -/
def cpniKeywords : List (String × List String) :=
  [("communication_fields",
    ["call", "cll", "calling", "voice", "voicecall", "voice_call", "conversation", "conv",
     "sms", "message", "msg", "text", "textmessage", "text_message", "mms", "chat",
     "communication", "comm", "talk", "audio", "recording", "rec"]),
   ("usage_fields",
    ["data", "usage", "consumed", "consumption", "volume", "bytes", "mb", "gb", "tb",
     "megabytes", "gigabytes", "terabytes", "kilobytes", "kb", "traffic", "bandwidth", "bw",
     "speed", "throughput", "transfer", "download", "upload", "stream", "streaming"]),
   ("network_fields",
    ["network", "net", "nw", "cell", "cellular", "tower", "antenna", "signal", "coverage",
     "connection", "conn", "session", "sess", "bearer", "carrier", "operator", "provider",
     "imsi", "imei", "mcc", "mnc", "lac", "cgi", "cellid", "cell_id", "networkid", "network_id",
     "operatorid", "operator_id", "carrierid", "carrier_id", "providerid", "provider_id"]),
   ("location_fields",
    ["location", "loc", "position", "pos", "coordinates", "coord", "coords", "gps",
     "latitude", "lat", "longitude", "lng", "lon", "geolocation", "geo", "geocode",
     "place", "whereabouts", "locale", "spot", "site", "point", "area", "zone", "region"]),
   ("service_fields",
    ["service", "svc", "plan", "package", "subscription", "sub", "activation", "provision",
     "feature", "addon", "add_on", "option", "roaming", "international", "domestic"]),
   ("session_fields",
    ["session", "sess", "duration", "time", "period", "start", "end", "begin", "finish",
     "timestamp", "starttime", "start_time", "endtime", "end_time", "calltime", "call_time"])]

/-- The `rpi` keyword subcategories of the default configuration. -/
def rpiKeywords : List (String × List String) :=
  [("payment_fields",
    ["payment", "pay", "billing", "bill", "invoice", "charge", "fee", "cost", "price",
     "amount", "amt", "total", "sum", "subtotal", "grandtotal", "grand_total",
     "balance", "bal", "credit", "debit", "debt", "owed", "due", "outstanding"]),
   ("financial_fields",
    ["account", "acct", "financial", "finance", "money", "currency", "revenue", "income",
     "expense", "expenditure", "transaction", "trans", "purchase", "sale", "order",
     "receipt", "paymentid", "payment_id", "transactionid", "transaction_id", "reference", "ref",
     "confirmation", "conf", "approval", "auth", "authorization"]),
   ("card_fields",
    ["card", "cc", "creditcard", "credit_card", "debitcard", "debit_card", "cardno", "card_no",
     "cardnumber", "card_number", "cardholder", "card_holder", "cardname", "card_name",
     "cardtype", "card_type", "cardissuer", "card_issuer", "paymentcard", "payment_card",
     "bankcard", "bank_card", "plasticcard", "plastic_card"])]

/-- The `cso` keyword subcategories of the default configuration. -/
def csoKeywords : List (String × List String) :=
  [("support_fields",
    ["ticket", "support", "help", "issue", "problem", "complaint", "feedback", "note",
     "comment", "remark", "observation", "report", "incident", "case", "request", "req"]),
   ("internal_fields",
    ["internal", "int", "employee", "emp", "staff", "operator", "op", "admin", "administrator",
     "system", "sys", "config", "configuration", "setting", "settings", "parameter", "param"]),
   ("metrics_fields",
    ["metric", "performance", "perf", "quality", "log", "audit", "monitor", "monitoring",
     "track", "tracking", "measure", "measurement", "stats", "statistics", "analytics",
     "kpi", "indicator", "score", "rating", "benchmark"])]

/-- The `pci` keyword subcategories of the default configuration. -/
def pciKeywords : List (String × List String) :=
  [("card_number_fields",
    ["card", "cc", "creditcard", "credit_card", "debitcard", "debit_card", "pan",
     "cardnumber", "card_number", "cardno", "card_no", "ccnumber", "cc_number",
     "accountnumber", "account_number", "number", "num", "no"]),
   ("security_code_fields",
    ["cvv", "cvc", "cvn", "cid", "securitycode", "security_code", "verificationcode",
     "verification_code", "checkcode", "check_code", "csc", "cardcode", "card_code",
     "securitynumber", "security_number", "pin", "pincode", "pin_code"]),
   ("expiry_fields",
    ["expiry", "expire", "expiration", "exp", "expirydate", "expiry_date", "expirationdate",
     "expiration_date", "validthru", "valid_thru", "validuntil", "valid_until", "goodthru", "good_thru"]),
   ("cardholder_fields",
    ["cardholder", "card_holder", "holdername", "holder_name", "cardname", "card_name",
     "nameoncard", "name_on_card", "cardownername", "card_owner_name", "ownername", "owner_name"])]

/-- The `exact_keywords` table in its dict iteration order. -/
def defaultExactKeywords : List (String × List (String × List String)) :=
  [("spi", spiKeywords), ("cpni", cpniKeywords), ("rpi", rpiKeywords),
   ("cso", csoKeywords), ("pci", pciKeywords)]

/-- The static `exclusions` list of the default configuration. -/
def defaultExclusions : List String :=
  ["status", "code", "type", "version", "timestamp", "method", "protocol",
   "format", "encoding", "charset", "limit", "offset", "page", "size",
   "count", "total", "success", "error", "message", "description",
   "content-type", "user-agent", "accept", "host", "connection", "cache-control",
   "length", "max", "min", "uuid", "guid", "hash", "checksum", "signature",
   "result", "response", "request", "verified", "preferred", "enabled", "disabled",
   "active", "inactive", "valid", "invalid", "tenuretype", "tenure", "tier",
   "autopay", "autodebit", "paperless", "billcycle", "billlanguage", "language",
   "locale", "timezone", "currency", "region", "country", "position",
   "subtype", "subclass", "subcategory", "subgroup", "sublevel"]

/-- The compiled `value_patterns` in dict iteration order. -/
def defaultValuePatterns : List (String × (String → Bool)) :=
  [("email", emailMatch), ("phone", phoneMatch), ("credit_card", creditCardMatch),
   ("ssn", ssnMatch), ("date_standard", dateStandardMatch), ("date_text", dateTextMatch),
   ("date_compact", dateCompactMatch), ("coordinates", coordinatesMatch),
   ("currency", currencyMatch), ("imei", imeiMatch), ("cvv", cvvMatch),
   ("ip", ipMatch), ("name_pattern", namePatternMatch),
   ("long_numeric_id", longNumericIdMatch), ("alphanumeric_id", alphanumericIdMatch)]

/-- The `pattern_mappings` table of the default configuration. -/
def defaultPatternMappings : List (String × List String) :=
  [("email", ["SPI"]), ("phone", ["SPI"]), ("credit_card", ["RPI", "PCI"]),
   ("ssn", ["SPI"]), ("date_standard", ["SPI"]), ("date_text", ["SPI"]),
   ("date_compact", ["SPI"]), ("coordinates", ["CPNI"]), ("currency", ["RPI"]),
   ("imei", ["CPNI"]), ("cvv", ["PCI"]), ("ip", ["CSO"]),
   ("name_pattern", ["SPI"]), ("long_numeric_id", ["CONTEXTUAL"]),
   ("alphanumeric_id", ["CONTEXTUAL"])]

/-- The default generator configuration: the freshly created pattern file
has empty developer overrides. -/
def defaultConfig : GenConfig :=
  { manualBlacklist := []
    manualWhitelist := []
    exclusions := defaultExclusions
    entityPfxs := defaultEntityPfxs
    exactKeywords := defaultExactKeywords
    valuePatterns := defaultValuePatterns
    patternMappings := defaultPatternMappings }

/-!  `merge_overrides_script.py`: the pure set computation of
`merge_overrides` (lines 45-68), on the manual blacklist/whitelist pairs
of the pattern store and of the transient override file.  -/

/-- A manual blacklist/whitelist pair, as stored in `developer_overrides`. -/
structure OverrideSets where
  bl : Finset String
  wl : Finset String
deriving DecidableEq

/-- `merge_overrides`: union the incoming pair into the current one, then
remove every whitelisted name from the combined blacklist. -/
def mergeOverrides (cur incoming : OverrideSets) : OverrideSets :=
  let combinedBl := cur.bl ∪ incoming.bl
  let combinedWl := cur.wl ∪ incoming.wl
  ⟨combinedBl \ combinedWl, combinedWl⟩

/-!  `compile_patterns` (value-pattern half): each entry is compiled inside
a try/except that logs and skips on `re.error`.  Compilability of a regex
string is modelled by the abstract `compile` argument, which returns
`none` exactly when `re.compile` would raise.  -/

/-- `compile_patterns` over the `value_patterns` entries: compile each
pattern string, keep the successes, skip the failures, never fail. -/
def compilePatterns (compile : String → Option (String → Bool)) :
    List (String × String) → List (String × (String → Bool))
  | [] => []
  | (nm, ps) :: rest =>
      match compile ps with
      | some m => (nm, m) :: compilePatterns compile rest
      | none => compilePatterns compile rest

/-- A toy compilability oracle for the C9 witness: rejects the lone
unbalanced-bracket pattern string and compiles anything else to an exact
string comparison. -/
def toyCompile (s : String) : Option (String → Bool) :=
  if s = "(" then none else some fun v => decide (v = s)

/-!  Theorems settling the claims, with their supporting lemmas.  -/

/-- A letter is a word character of the boundary class. -/
theorem wordChar_of_alpha {c : Char} (h : alphaC c = true) : wordChar c = true := by
  simp [wordChar, alnumC, h]

/-- In an all-letter text, a position holds a word character exactly when it
is in range. -/
theorem wcAt_letters {cs : List Char} (hl : ∀ c ∈ cs, alphaC c = true) (j : Nat) :
    wcAt cs j = decide (j < cs.length) := by
  unfold wcAt
  cases hg : cs.get? j with
  | none =>
      have hge := List.get?_eq_none.mp hg
      simp [Nat.not_lt.mpr hge]
  | some c =>
      have hmem : c ∈ cs := List.get?_mem hg
      obtain ⟨hj, -⟩ := List.get?_eq_some.mp hg
      show wordChar c = decide (j < cs.length)
      rw [wordChar_of_alpha (hl c hmem)]
      exact (decide_eq_true hj).symm

/-- In a non-empty all-letter text, word boundaries sit exactly at the two
ends. -/
theorem boundAt_letters {cs : List Char} (hne : cs ≠ []) (hl : ∀ c ∈ cs, alphaC c = true)
    (i : Nat) : boundAt cs i = decide (i = 0 ∨ i = cs.length) := by
  have hn : 0 < cs.length := List.length_pos.mpr hne
  unfold boundAt
  rw [wcAt_letters hl i]
  by_cases h0 : i = 0
  · subst h0
    simp [hn]
  · rw [if_neg h0, wcAt_letters hl (i - 1)]
    by_cases hin : i = cs.length
    · have hA : i - 1 < cs.length := by omega
      have hB : ¬ (i < cs.length) := by omega
      simp [hA, hB, hin, hn]
    · by_cases hlt : i < cs.length
      · have hA : i - 1 < cs.length := by omega
        simp [hA, hlt, h0, hin]
      · have hA : ¬ (i - 1 < cs.length) := by omega
        have hB : ¬ (i < cs.length) := by omega
        simp [hA, hB, h0, hin]

/-- Against a non-empty all-letter text, a non-empty keyword occurs between
word boundaries exactly when it equals the whole text. -/
theorem wbOccurs_letters {kw cs : List Char} (hne : cs ≠ []) (hl : ∀ c ∈ cs, alphaC c = true)
    (hkw : kw ≠ []) : wbOccurs kw cs = decide (kw = cs) := by
  by_cases heq : kw = cs
  · rw [decide_eq_true heq]
    unfold wbOccurs
    refine List.any_eq_true.mpr ⟨0, List.mem_range.mpr (Nat.succ_pos _), ?_⟩
    subst heq
    simp [List.take_length, boundAt_letters hne hl]
  · rw [decide_eq_false heq]
    unfold wbOccurs
    refine List.any_eq_false.mpr ?_
    intro i hi hcond
    rw [Bool.and_eq_true, Bool.and_eq_true] at hcond
    obtain ⟨⟨hsl, hb1⟩, hb2⟩ := hcond
    have hsl' : (cs.drop i).take kw.length = kw := beq_iff_eq.mp hsl
    rw [boundAt_letters hne hl] at hb1 hb2
    replace hb1 := of_decide_eq_true hb1
    replace hb2 := of_decide_eq_true hb2
    have hmpos : 0 < kw.length := List.length_pos.mpr hkw
    have hlen := congrArg List.length hsl'
    simp only [List.length_take, List.length_drop] at hlen
    rcases hb2 with h20 | h2n
    · omega
    rcases hb1 with h10 | h1n
    · subst h10
      rw [List.drop_zero] at hsl'
      have hkl : kw.length = cs.length := by omega
      rw [hkl, List.take_length] at hsl'
      exact heq hsl'.symm
    · omega

/-- Claim C4 (amended): the keyword-matching step performs no
fuzzy-abbreviation normalization (the `fuzzy_rules` attribute is
initialized but never loaded or consulted); a subcategory keyword list is
matched against the field key by the compiled whole-word-boundary regex,
so on a purely alphabetic key a keyword matches exactly when it equals
the whole key — containment of a keyword inside the key does not fire. -/
theorem c4_whole_word_semantics (kws : List String) (k : String)
    (hne : k.toList ≠ []) (hl : ∀ c ∈ k.toList, alphaC c = true)
    (hkws : ∀ kw ∈ kws, kw.toList ≠ []) :
    wbSearch kws k = kws.any fun kw => decide (kw = k) := by
  unfold wbSearch
  induction kws with
  | nil => rfl
  | cons kw rest ih =>
      rw [List.any_cons, List.any_cons]
      rw [wbOccurs_letters hne hl (hkws kw (List.mem_cons_self kw rest))]
      rw [ih fun kw2 h2 => hkws kw2 (List.mem_cons_of_mem kw h2)]
      congr 1
      rw [decide_eq_decide]
      constructor
      · intro h
        cases kw
        cases k
        exact congrArg String.mk (by simpa using h)
      · intro h
        rw [h]


/-- Claim C1: when the final path key of a classified field is in the
developer manual blacklist and not in the manual whitelist, `analyze_field`
blacklists it with detected category DEVELOPER_MANUAL (as a key-based exact
match), whatever the sample values are. -/
theorem c1_manual_blacklist_sensitive (cfg : GenConfig) (path : String) (vals : List String)
    (hcat : getFieldCategory path ≠ "unknown")
    (hwl : extractFinalKey path ∉ cfg.manualWhitelist)
    (hbl : extractFinalKey path ∈ cfg.manualBlacklist) :
    classifyField cfg path vals = .blacklistedField ["DEVELOPER_MANUAL"] true := by
  simp [classifyField, hcat, hwl, hbl]

/-- Witness for C1 at a concrete input: a manually blacklisted key inside a
request path, with boolean-like sample values that every automatic rule
would have excluded. -/
theorem c1_manual_blacklist_sensitive_witness :
    getFieldCategory "request.secretField" ≠ "unknown" ∧
    extractFinalKey "request.secretField" ∉
      ({ defaultConfig with manualBlacklist := ["secretField"] } : GenConfig).manualWhitelist ∧
    extractFinalKey "request.secretField" ∈
      ({ defaultConfig with manualBlacklist := ["secretField"] } : GenConfig).manualBlacklist ∧
    classifyField { defaultConfig with manualBlacklist := ["secretField"] }
      "request.secretField" ["true"] = .blacklistedField ["DEVELOPER_MANUAL"] true :=
  ⟨by decide, by decide, by decide,
   c1_manual_blacklist_sensitive { defaultConfig with manualBlacklist := ["secretField"] }
     "request.secretField" ["true"] (by decide) (by decide) (by decide)⟩

/-- Claim C2: after `merge_overrides`, the final manual blacklist is the
union of both blacklists minus the union of both whitelists, hence disjoint
from the final manual whitelist — the whitelist wins on every conflict. -/
theorem c2_merge_whitelist_precedence (cur incoming : OverrideSets) :
    (mergeOverrides cur incoming).bl ∩ (mergeOverrides cur incoming).wl = ∅ ∧
    (mergeOverrides cur incoming).bl = (cur.bl ∪ incoming.bl) \ (cur.wl ∪ incoming.wl) := by
  constructor
  · ext a
    simp [mergeOverrides]
  · rfl

/-- Claim C8: merging the same override pair a second time changes nothing —
the union-then-subtract merge step is idempotent. -/
theorem c8_merge_idempotent (cur incoming : OverrideSets) :
    mergeOverrides (mergeOverrides cur incoming) incoming = mergeOverrides cur incoming := by
  simp only [mergeOverrides, OverrideSets.mk.injEq]
  constructor
  · ext a
    simp
    tauto
  · ext a
    simp

/-- Every entry that compiles lands in the output of `compile_patterns`. -/
theorem mem_compilePatterns_of (compile : String → Option (String → Bool))
    {l : List (String × String)} {nm2 p2 : String} {m : String → Bool}
    (hm : (nm2, p2) ∈ l) (hc : compile p2 = some m) :
    (nm2, m) ∈ compilePatterns compile l := by
  induction l with
  | nil => cases hm
  | cons hd tl ih =>
      obtain ⟨a, b⟩ := hd
      rcases List.mem_cons.mp hm with heq | hm2
      · obtain ⟨rfl, rfl⟩ := Prod.mk.injEq .. ▸ heq
        simp [compilePatterns, hc]
      · cases hab : compile b with
        | none => simpa [compilePatterns, hab] using ih hm2
        | some mb => simp [compilePatterns, hab, ih hm2]

/-- Claim C9: a malformed regex entry (one the compiler rejects) is skipped:
compilation never fails, the compiled pattern list is the one obtained
without the bad entry, every well-formed entry is still compiled, and value
analysis over the compiled patterns is unchanged. -/
theorem c9_malformed_regex_skipped (compile : String → Option (String → Bool))
    (l1 l2 : List (String × String)) (nm bad : String)
    (hbad : compile bad = none) (cfg : GenConfig) (vals : List String) :
    compilePatterns compile (l1 ++ (nm, bad) :: l2) = compilePatterns compile (l1 ++ l2) ∧
    (∀ nm2 p2 m, (nm2, p2) ∈ l1 ++ l2 → compile p2 = some m →
      (nm2, m) ∈ compilePatterns compile (l1 ++ (nm, bad) :: l2)) ∧
    analyzeValues { cfg with valuePatterns := compilePatterns compile (l1 ++ (nm, bad) :: l2) } vals =
      analyzeValues { cfg with valuePatterns := compilePatterns compile (l1 ++ l2) } vals := by
  have h1 : compilePatterns compile (l1 ++ (nm, bad) :: l2) = compilePatterns compile (l1 ++ l2) := by
    induction l1 with
    | nil => simp [compilePatterns, hbad]
    | cons hd tl ih =>
        obtain ⟨a, b⟩ := hd
        cases hab : compile b with
        | none => simpa [compilePatterns, hab] using ih
        | some mb => simp [compilePatterns, hab, ih]
  refine ⟨h1, ?_, by rw [h1]⟩
  intro nm2 p2 m hm hc
  rw [h1]
  exact mem_compilePatterns_of compile hm hc

/-- Witness for C9 at a concrete input: a two-entry pattern list whose
second entry is malformed. -/
theorem c9_malformed_regex_skipped_witness :
    toyCompile "(" = none ∧
    (compilePatterns toyCompile ([("ok", "abc")] ++ ("bad", "(") :: []) =
        compilePatterns toyCompile ([("ok", "abc")] ++ []) ∧
      (∀ nm2 p2 m, (nm2, p2) ∈ [("ok", "abc")] ++ [] → toyCompile p2 = some m →
        (nm2, m) ∈ compilePatterns toyCompile ([("ok", "abc")] ++ ("bad", "(") :: [])) ∧
      analyzeValues { defaultConfig with
          valuePatterns := compilePatterns toyCompile ([("ok", "abc")] ++ ("bad", "(") :: []) } ["x"] =
        analyzeValues { defaultConfig with
          valuePatterns := compilePatterns toyCompile ([("ok", "abc")] ++ []) } ["x"]) :=
  ⟨rfl, c9_malformed_regex_skipped toyCompile [("ok", "abc")] [] "bad" "(" rfl defaultConfig ["x"]⟩

/-- A path starting with the literal request dot prelude has first dotted
segment request. -/
theorem firstSegment_request {path : String} (h : strStartsWith path "request." = true) :
    firstSegment path = "request" := by
  unfold strStartsWith at h
  have h' : path.toList.take ("request.".toList.length) = "request.".toList := beq_iff_eq.mp h
  have hd : path.toList = "request.".toList ++ path.toList.drop ("request.".toList.length) := by
    conv_lhs => rw [← List.take_append_drop ("request.".toList.length) path.toList]
    rw [h']
  unfold firstSegment
  rw [hd]
  rfl

/-- A path starting with the literal response dot prelude has first dotted
segment response. -/
theorem firstSegment_response {path : String} (h : strStartsWith path "response." = true) :
    firstSegment path = "response" := by
  unfold strStartsWith at h
  have h' : path.toList.take ("response.".toList.length) = "response.".toList := beq_iff_eq.mp h
  have hd : path.toList = "response.".toList ++ path.toList.drop ("response.".toList.length) := by
    conv_lhs => rw [← List.take_append_drop ("response.".toList.length) path.toList]
    rw [h']
  unfold firstSegment
  rw [hd]
  rfl

/-- A path starting with the literal headers dot prelude has first dotted
segment headers. -/
theorem firstSegment_headers {path : String} (h : strStartsWith path "headers." = true) :
    firstSegment path = "headers" := by
  unfold strStartsWith at h
  have h' : path.toList.take ("headers.".toList.length) = "headers.".toList := beq_iff_eq.mp h
  have hd : path.toList = "headers.".toList ++ path.toList.drop ("headers.".toList.length) := by
    conv_lhs => rw [← List.take_append_drop ("headers.".toList.length) path.toList]
    rw [h']
  unfold firstSegment
  rw [hd]
  rfl

/-- Claim C10: on a field path whose first dotted segment is none of
request, response or headers, `analyze_field` returns at the unknown
category check: the payload and headers blacklists and all four report
lists are left exactly as they were. -/
theorem c10_unknown_root_frame (cfg : GenConfig) (st : GenState) (path : String)
    (vals : List String)
    (h : firstSegment path ∉ (["request", "response", "headers"] : List String)) :
    analyzeFieldS cfg st path vals = st := by
  have hcat : getFieldCategory path = "unknown" := by
    unfold getFieldCategory
    rw [if_neg, if_neg, if_neg]
    · intro hq
      exact h (by rw [firstSegment_headers hq]; simp)
    · intro hq
      exact h (by rw [firstSegment_response hq]; simp)
    · intro hq
      exact h (by rw [firstSegment_request hq]; simp)
  have hskip : classifyField cfg path vals = .skipped := by
    simp [classifyField, hcat]
  simp [analyzeFieldS, hskip]

/-- Witness for C10 at a concrete input: a payload-rooted path leaves the
empty state untouched. -/
theorem c10_unknown_root_frame_witness :
    firstSegment "payload.name" ∉ (["request", "response", "headers"] : List String) ∧
    analyzeFieldS defaultConfig emptyGenState "payload.name" ["x"] = emptyGenState :=
  ⟨by decide,
   c10_unknown_root_frame defaultConfig emptyGenState "payload.name" ["x"] (by decide)⟩

/-- Claim C5 counterexample: the claim fails as stated — a key in the
static exclusion list that a developer also put in the manual blacklist is
classified sensitive, because the manual-blacklist check runs first. -/
theorem c5_exclusion_counterexample :
    lowerStr (extractFinalKey "request.status") ∈
      ({ defaultConfig with manualBlacklist := ["status"] } : GenConfig).exclusions ∧
    classifyField { defaultConfig with manualBlacklist := ["status"] } "request.status"
      ["active"] = .blacklistedField ["DEVELOPER_MANUAL"] true :=
  ⟨by decide, by decide⟩

/-- Claim C5 (amended): for every classified field whose lowered final key
is in the static exclusion list and is not manually blacklisted,
classification yields not sensitive, regardless of the sample values. -/
theorem c5_exclusion_not_sensitive (cfg : GenConfig) (path : String) (vals : List String)
    (hcat : getFieldCategory path ≠ "unknown")
    (hbl : extractFinalKey path ∉ cfg.manualBlacklist)
    (hex : lowerStr (extractFinalKey path) ∈ cfg.exclusions) :
    (classifyField cfg path vals).isSensitive = false := by
  have hse : shouldExclude cfg (extractFinalKey path) = true := decide_eq_true hex
  simp only [classifyField]
  split_ifs <;> simp_all [FieldDisposition.isSensitive]

/-- Witness for amended C5 at a concrete input: a timestamp key with a
value that matches sensitive value patterns is still excluded. -/
theorem c5_exclusion_not_sensitive_witness :
    getFieldCategory "response.timestamp" ≠ "unknown" ∧
    extractFinalKey "response.timestamp" ∉ defaultConfig.manualBlacklist ∧
    lowerStr (extractFinalKey "response.timestamp") ∈ defaultConfig.exclusions ∧
    (classifyField defaultConfig "response.timestamp" ["123"]).isSensitive = false :=
  ⟨by decide, by decide, by decide,
   c5_exclusion_not_sensitive defaultConfig "response.timestamp" ["123"]
     (by decide) (by decide) (by decide)⟩

/-- Claim C6 counterexample: the claim fails as stated — a field whose
samples are all boolean-like is still classified sensitive when its key is
manually blacklisted, since the override precedes the boolean exclusion
(the key name even sits in a category keyword list here). -/
theorem c6_boolean_counterexample :
    isBooleanField ["true"] = true ∧
    (∃ sub ∈ spiKeywords, "name" ∈ sub.2) ∧
    classifyField { defaultConfig with manualBlacklist := ["name"] } "request.name" ["true"]
      = .blacklistedField ["DEVELOPER_MANUAL"] true :=
  ⟨by decide, by decide, by decide⟩

/-- Claim C6 (amended): a classified field with at least one sample value,
all of them boolean-like, is not sensitive even when its name matches a
category keyword list — provided the key is not manually blacklisted,
since the boolean exclusion runs before keyword matching but after the
developer override. -/
theorem c6_boolean_not_sensitive (cfg : GenConfig) (path : String) (vals : List String)
    (hcat : getFieldCategory path ≠ "unknown")
    (hbl : extractFinalKey path ∉ cfg.manualBlacklist)
    (hne : vals ≠ [])
    (hb : ∀ v ∈ vals, pyStripLower v ∈ booleanValues) :
    (classifyField cfg path vals).isSensitive = false := by
  have hbf : isBooleanField vals = true := by
    unfold isBooleanField
    rw [Bool.and_eq_true]
    constructor
    · simpa using hne
    · rw [List.all_eq_true]
      intro v hv
      exact decide_eq_true (hb v hv)
  simp only [classifyField]
  split_ifs <;> simp_all [FieldDisposition.isSensitive]

/-- Witness for amended C6 at a concrete input: the key name is in the SPI
name keyword list, yet all-boolean values exclude the field. -/
theorem c6_boolean_not_sensitive_witness :
    getFieldCategory "request.name" ≠ "unknown" ∧
    extractFinalKey "request.name" ∉ defaultConfig.manualBlacklist ∧
    (["true", "N"] : List String) ≠ [] ∧
    (∀ v ∈ (["true", "N"] : List String), pyStripLower v ∈ booleanValues) ∧
    (classifyField defaultConfig "request.name" ["true", "N"]).isSensitive = false :=
  ⟨by decide, by decide, by decide, by decide,
   c6_boolean_not_sensitive defaultConfig "request.name" ["true", "N"]
     (by decide) (by decide) (by decide) (by decide)⟩

/-- The exclusion conditions of the claim imply `has_code_or_type_suffix`:
no sensitive code exception occurs in the key, the key ends in a
classification suffix, and a key ending in code also carries a business
context word. -/
theorem hasCodeOrTypeSuffix_of (fieldName : String)
    (hexc : ∀ e ∈ sensitiveCodeExceptions, containsSub e (lowerStr fieldName) = false)
    (hsuf : ∃ s ∈ classificationSuffixes, endsWithS (lowerStr fieldName) s = true)
    (hbiz : endsWithS (lowerStr fieldName) "code" = true →
      ∃ b ∈ businessCodePatterns, containsSub b (lowerStr fieldName) = true) :
    hasCodeOrTypeSuffix fieldName = true := by
  unfold hasCodeOrTypeSuffix
  have hany : sensitiveCodeExceptions.any (fun e => containsSub e (lowerStr fieldName)) = false := by
    rw [List.any_eq_false]
    intro e he
    simp [hexc e he]
  simp only [hany, Bool.false_eq_true, if_false]
  by_cases hc : endsWithS (lowerStr fieldName) "code" = true
  · rw [if_pos hc]
    obtain ⟨b, hbm, hbc⟩ := hbiz hc
    refine List.any_eq_true.mpr ⟨b, hbm, ?_⟩
    simp [hbc, hany]
  · rw [if_neg hc]
    obtain ⟨s, hsm, hse⟩ := hsuf
    rcases List.mem_cons.mp hsm with rfl | hsm2
    · exact absurd hse hc
    · exact List.any_eq_true.mpr ⟨s, hsm2, hse⟩

/-- Claim C7 counterexample: the claim fails as stated — a key ending in
the classification suffix code with no sensitive exception in it is not
excluded when it lacks a business context word, and sensitive-looking
values then blacklist it. -/
theorem c7_code_suffix_counterexample :
    endsWithS (lowerStr (extractFinalKey "request.foocode")) "code" = true ∧
    (∀ e ∈ sensitiveCodeExceptions,
      containsSub e (lowerStr (extractFinalKey "request.foocode")) = false) ∧
    (classifyField defaultConfig "request.foocode" ["123"]).isSensitive = true :=
  ⟨by decide, by decide, by decide⟩

/-- Claim C7 (amended): a classified, not manually blacklisted field whose
lowered final key ends in a classification suffix, contains no sensitive
code exception, and — when the suffix is code — also contains a business
context word (as statusCode does), is classified not sensitive. -/
theorem c7_suffix_not_sensitive (cfg : GenConfig) (path : String) (vals : List String)
    (hcat : getFieldCategory path ≠ "unknown")
    (hbl : extractFinalKey path ∉ cfg.manualBlacklist)
    (hexc : ∀ e ∈ sensitiveCodeExceptions,
      containsSub e (lowerStr (extractFinalKey path)) = false)
    (hsuf : ∃ s ∈ classificationSuffixes,
      endsWithS (lowerStr (extractFinalKey path)) s = true)
    (hbiz : endsWithS (lowerStr (extractFinalKey path)) "code" = true →
      ∃ b ∈ businessCodePatterns, containsSub b (lowerStr (extractFinalKey path)) = true) :
    (classifyField cfg path vals).isSensitive = false := by
  have hs := hasCodeOrTypeSuffix_of (extractFinalKey path) hexc hsuf hbiz
  simp only [classifyField]
  split_ifs <;> simp_all [FieldDisposition.isSensitive]

/-- Witness for amended C7 at the concrete input of the claim: statusCode
with value 200 is excluded, not sensitive. -/
theorem c7_suffix_not_sensitive_witness :
    getFieldCategory "request.statusCode" ≠ "unknown" ∧
    extractFinalKey "request.statusCode" ∉ defaultConfig.manualBlacklist ∧
    (∀ e ∈ sensitiveCodeExceptions,
      containsSub e (lowerStr (extractFinalKey "request.statusCode")) = false) ∧
    (∃ s ∈ classificationSuffixes,
      endsWithS (lowerStr (extractFinalKey "request.statusCode")) s = true) ∧
    (classifyField defaultConfig "request.statusCode" ["200"]).isSensitive = false :=
  ⟨by decide, by decide, by decide, by decide,
   c7_suffix_not_sensitive defaultConfig "request.statusCode" ["200"]
     (by decide) (by decide) (by decide) (by decide) (by decide)⟩

/-- Claim C3 counterexample: the claim fails as stated — a field named
accountAge with sample value 123 is classified sensitive: the CVV, phone
and currency value patterns match and no corroborating field-name keyword
is required anywhere in `analyze_values` or `analyze_field`. -/
theorem c3_corroboration_counterexample :
    cvvMatch (pyStrip "123") = true ∧
    (classifyField defaultConfig "request.accountAge" ["123"]).isSensitive = true :=
  ⟨by decide, by decide⟩

/-- Claim C3 (amended): a value-pattern match alone suffices to blacklist a
field — cvv with value 123 is sensitive with detected category PCI, and
accountAge with the same value is equally sensitive, purely value-based
(its exact keyword match is empty, so no name corroboration happened). -/
theorem c3_value_match_alone_sufficient :
    classifyField defaultConfig "request.cvv" ["123"] =
      .blacklistedField ["PCI", "SPI", "RPI"] true ∧
    "PCI" ∈ (classifyField defaultConfig "request.cvv" ["123"]).cats ∧
    classifyField defaultConfig "request.accountAge" ["123"] =
      .blacklistedField ["SPI", "RPI", "PCI"] false ∧
    exactKeywordMatch defaultConfig "request.accountAge" = [] :=
  ⟨by decide, by decide, by decide, by decide⟩

/-- Claim C4 counterexample: the claim fails as stated — the keyword age
sits in the SPI date-of-birth keyword list and is contained in the raw
lowered key accountage, yet `exact_keyword_match` accumulates no category
for it, because matching is whole-word, not containment, and no
fuzzy-abbreviation normalization exists in the code. -/
theorem c4_containment_counterexample :
    (∃ catSub ∈ defaultConfig.exactKeywords, ∃ sub ∈ catSub.2, "age" ∈ sub.2) ∧
    containsSub "age" (lowerStr (extractFinalKey "request.accountAge")) = true ∧
    exactKeywordMatch defaultConfig "request.accountAge" = [] :=
  ⟨by decide, by decide, by decide⟩

/-- Witness for amended C4 at a concrete input: over the keyword list
containing age and account, the compiled whole-word search on the purely
alphabetic key accountage agrees with whole-key equality — and both sides
are false, although both keywords are contained in the key. -/
theorem c4_whole_word_semantics_witness :
    "accountage".toList ≠ [] ∧
    (∀ c ∈ "accountage".toList, alphaC c = true) ∧
    (∀ kw ∈ (["age", "account"] : List String), kw.toList ≠ []) ∧
    wbSearch ["age", "account"] "accountage" =
      (["age", "account"] : List String).any (fun kw => decide (kw = "accountage")) ∧
    wbSearch ["age", "account"] "accountage" = false :=
  ⟨by decide, by decide, by decide,
   c4_whole_word_semantics ["age", "account"] "accountage" (by decide) (by decide) (by decide),
   by decide⟩
